import Mathlib

/-! # Verification of the package HTTP cache provider and the coerced-semver module

Shallow embedding of two components of the repository:

* the conditional HTTP cache provider (soft TTL short-circuit, conditional
  revalidation, cache-control privacy policy, stale-on-error fallback);
* the semver-coerced versioning module (src/lib/modules/versioning/semver-coerced/index.ts).

The provider implementation file (package-http-cache-provider.ts) is not among
the sources; only its test suite is.  The provider is therefore modelled from
the specification (spec sections 3, 4.1, 4.2) and cross-checked against the
behaviours the test suite pins down.  Times are integer instants in
milliseconds; the soft-TTL window of ttlMinutes minutes is ttlMinutes * 60000
milliseconds.
-/

namespace Cache

/-- Modelled from the spec: an HTTP response as seen by the cache layer
(status code, headers as a string-to-string mapping, body). -/
structure HttpResponse where
  statusCode : Nat
  headers : List (String × String)
  body : String
deriving Repr, DecidableEq

/-- Modelled from the spec: the persisted CacheEntry shape of spec section 3.
The implementation file package-http-cache-provider.ts is missing from the
sources, so this record follows the spec text: optional validators, the last
known good response, and the write-time timestamp (an instant, here in
milliseconds). -/
structure CacheEntry where
  etag : Option String
  lastModified : Option String
  httpResponse : HttpResponse
  timestamp : Int
deriving Repr, DecidableEq

/-- Modelled from the spec: the provider configuration of spec section 4.1
(namespace is irrelevant to the decision logic and omitted; ttlMinutes
defaults to 15, checkCacheControl defaults to true). -/
structure ProviderConfig where
  ttlMinutes : Nat
  checkCacheControl : Bool
deriving Repr, DecidableEq

/-- The documented default for ttlMinutes. -/
def defaultTtlMinutes : Nat := 15

/-- The documented default for checkCacheControl. -/
def defaultCheckCacheControl : Bool := true

/-- Milliseconds per minute, used to convert the ttlMinutes knob to the
millisecond timeline of timestamps. -/
def msPerMinute : Nat := 60000

/-- Look a header up by (lower-case) name in a response's header mapping. -/
def getHeader (headers : List (String × String)) (name : String) : Option String :=
  (headers.find? (fun p => p.fst == name)).map (fun p => p.snd)

/-- Whitespace characters stripped around Cache-Control directives. -/
def isWhitespaceChar (c : Char) : Bool :=
  c == ' ' || c == '\t' || c == '\n' || c == '\r'

/-- Strip leading and trailing whitespace from a character list. -/
def trimChars (cs : List Char) : List Char :=
  ((cs.dropWhile isWhitespaceChar).reverse.dropWhile isWhitespaceChar).reverse

/-- Split a character list at every comma. -/
def splitOnComma : List Char → List (List Char)
  | [] => [[]]
  | c :: rest =>
    let r := splitOnComma rest
    if c == ',' then [] :: r
    else
      match r with
      | [] => [[c]]
      | d :: ds => (c :: d) :: ds

/-- Modelled from the spec: whether the Cache-Control header of a response
contains the private directive (spec section 4.2).  Directives are separated
by commas and surrounding whitespace is ignored, as in the test data
(max-age=180, private). -/
def hasPrivateDirective (headers : List (String × String)) : Bool :=
  match getHeader headers "cache-control" with
  | none => false
  | some v => ((splitOnComma v.data).map trimChars).contains "private".data

/-- Modelled from the spec: the Cache Policy Evaluator of spec section 4.2.
A response is cacheable unless all three hold: checkCacheControl is true, the
Cache-Control header contains the private directive, and the process-wide
cachePrivatePackages flag is false. -/
def isCacheable (headers : List (String × String))
    (checkCacheControl : Bool) (cachePrivatePackages : Bool) : Bool :=
  !(checkCacheControl && hasPrivateDirective headers && !cachePrivatePackages)

/-- Modelled from the spec: the soft-TTL freshness test of spec section 4.1
step 2 — strict less-than, so equality does not count as fresh. -/
def isFresh (e : CacheEntry) (now : Int) (ttlMinutes : Nat) : Bool :=
  now - e.timestamp < (ttlMinutes * msPerMinute : Nat)

instance exceptDecEq {ε α : Type} [DecidableEq ε] [DecidableEq α] :
    DecidableEq (Except ε α) := fun a b =>
  match a, b with
  | Except.ok x, Except.ok y =>
    if h : x = y then isTrue (by simp [h]) else isFalse (by simp [h])
  | Except.error x, Except.error y =>
    if h : x = y then isTrue (by simp [h]) else isFalse (by simp [h])
  | Except.ok _, Except.error _ => isFalse (by simp)
  | Except.error _, Except.ok _ => isFalse (by simp)

/-- The observable outcome of one fetch call: the response (or propagated
transport failure) handed to the caller, the store write performed (none when
nothing was persisted), and whether the transport was called. -/
structure FetchResult where
  response : Except String HttpResponse
  storeWrite : Option CacheEntry
  transportCalled : Bool
deriving Repr, DecidableEq

/-- Modelled from the spec: step 5 of spec section 4.1 — a successful
non-304 response is handed to the policy evaluator; if cacheable, a new
entry is built from the response (validators from its headers, timestamp
now) and written; the response goes back to the caller either way. -/
def freshWrite (cfg : ProviderConfig) (cachePrivatePackages : Bool)
    (now : Int) (resp : HttpResponse) : FetchResult :=
  let cacheable := isCacheable resp.headers cfg.checkCacheControl cachePrivatePackages
  { response := Except.ok resp
    storeWrite :=
      if cacheable then
        some { etag := getHeader resp.headers "etag"
               lastModified := getHeader resp.headers "last-modified"
               httpResponse := resp
               timestamp := now }
      else none
    transportCalled := true }

/-- Modelled from the spec: steps 4 and 5 of spec section 4.1, interpreting a
successful transport response.  A 304 against an existing entry keeps the
cached body, refreshes the timestamp (and validators when the 304 carries
updated ones) and persists only if policy permits; any other status goes
through freshWrite.  A 304 with no prior entry cannot arise from a request
that carried no validators and is treated like any other response. -/
def handleResponse (cfg : ProviderConfig) (cachePrivatePackages : Bool)
    (entry : Option CacheEntry) (now : Int) (resp : HttpResponse) : FetchResult :=
  match entry with
  | some e =>
    if resp.statusCode == 304 then
      let cacheable := isCacheable resp.headers cfg.checkCacheControl cachePrivatePackages
      let refreshed : CacheEntry :=
        { etag := (getHeader resp.headers "etag").orElse (fun _ => e.etag)
          lastModified := (getHeader resp.headers "last-modified").orElse (fun _ => e.lastModified)
          httpResponse := e.httpResponse
          timestamp := now }
      { response := Except.ok e.httpResponse
        storeWrite := if cacheable then some refreshed else none
        transportCalled := true }
    else
      freshWrite cfg cachePrivatePackages now resp
  | none => freshWrite cfg cachePrivatePackages now resp

/-- Modelled from the spec: the fetch algorithm of spec section 4.1.  The
entry argument is the store read for the key; transport is the outcome the
Transport collaborator would produce if called (a successful response of any
status, or a network failure carrying a message).  Step 2 short-circuits on a
fresh entry; otherwise the transport is called, a failure falls back to the
stale entry when one exists and propagates unchanged when none does, and a
success is interpreted by handleResponse. -/
def fetch (cfg : ProviderConfig) (cachePrivatePackages : Bool)
    (entry : Option CacheEntry) (now : Int)
    (transport : Except String HttpResponse) : FetchResult :=
  match entry with
  | some e =>
    if isFresh e now cfg.ttlMinutes then
      { response := Except.ok e.httpResponse
        storeWrite := none
        transportCalled := false }
    else
      match transport with
      | Except.error _ =>
        { response := Except.ok e.httpResponse
          storeWrite := none
          transportCalled := true }
      | Except.ok resp => handleResponse cfg cachePrivatePackages (some e) now resp
  | none =>
    match transport with
    | Except.error msg =>
      { response := Except.error msg
        storeWrite := none
        transportCalled := true }
    | Except.ok resp => handleResponse cfg cachePrivatePackages none now resp

/-- The cached response used in the test suite's pre-populated entries. -/
def cachedResponse : HttpResponse :=
  { statusCode := 200, headers := [], body := "cached response" }

/-- The pre-populated entry of the test suite, with its write time taken as
the time origin. -/
def sampleEntry : CacheEntry :=
  { etag := some "etag-value"
    lastModified := some "Fri, 15 Jun 2024 00:00:00 GMT"
    httpResponse := cachedResponse
    timestamp := 0 }

/-- The provider configuration with both documented defaults. -/
def defaultCfg : ProviderConfig :=
  { ttlMinutes := defaultTtlMinutes, checkCacheControl := defaultCheckCacheControl }

/-- The fresh server response of the test suite (status 200, an ETag, a
public Cache-Control, no Last-Modified). -/
def newResponse : HttpResponse :=
  { statusCode := 200
    headers := [("etag", "foobar"), ("cache-control", "max-age=180, public")]
    body := "new response" }

/-- The private server response of the test suite. -/
def privateResponse : HttpResponse :=
  { statusCode := 200
    headers := [("etag", "foobar"), ("cache-control", "max-age=180, private")]
    body := "private response" }

/-- A server-error response, used to exercise pass-through of 5xx statuses
when the transport classifies them as successes. -/
def serverErrorResponse : HttpResponse :=
  { statusCode := 500, headers := [], body := "" }

end Cache

namespace SemverCoerced

/-- The external semver library consumed by
src/lib/modules/versioning/semver-coerced/index.ts, abstracted at its call
boundary: coerce (semver.coerce with includePrerelease, null on failure,
here Option), the comparators on coerced values, and validity of a value
(truthiness of semver.valid applied to it). -/
structure SemverLib (V : Type) where
  coerce : String → Option V
  compareV : V → V → Int
  eqV : V → V → Bool
  gtV : V → V → Bool
  validV : V → Bool

/-- Embeds sortVersions: coerce both arguments; when both coercions succeed
return the library comparison, otherwise 0. -/
def sortVersions {V : Type} (L : SemverLib V) (a b : String) : Int :=
  match L.coerce a, L.coerce b with
  | some aCoerced, some bCoerced => L.compareV aCoerced bCoerced
  | _, _ => 0

/-- Embeds equals: coerce both arguments; when both coercions succeed return
the library equality, otherwise false. -/
def equals {V : Type} (L : SemverLib V) (a b : String) : Bool :=
  match L.coerce a, L.coerce b with
  | some aCoerced, some bCoerced => L.eqV aCoerced bCoerced
  | _, _ => false

/-- Embeds isGreaterThan: coerce both arguments; when either coercion fails
return false, otherwise the library greater-than. -/
def isGreaterThan {V : Type} (L : SemverLib V) (version other : String) : Bool :=
  match L.coerce version, L.coerce other with
  | some coercedVersion, some coercedOther => L.gtV coercedVersion coercedOther
  | _, _ => false

/-- Embeds the startsWithNumberRegex test (the regular expression matching a
leading decimal digit). -/
def startsWithDigit (s : String) : Bool :=
  match s.data with
  | [] => false
  | c :: _ => c.isDigit

/-- Embeds the startsWith test for the single character v. -/
def startsWithV (s : String) : Bool :=
  match s.data with
  | [] => false
  | c :: _ => c == 'v'

/-- Embeds isValid: the truthiness of semver.valid applied to the coercion,
which is false exactly when coercion failed or yields an invalid value. -/
def isValid {V : Type} (L : SemverLib V) (version : String) : Bool :=
  match L.coerce version with
  | some c => L.validV c
  | none => false

/-- Embeds isSingleVersion: a string starting with neither the character v
nor a digit is rejected outright (coercion also accepts ranges); otherwise
the result is isValid on the string. -/
def isSingleVersion {V : Type} (L : SemverLib V) (version : String) : Bool :=
  if !(startsWithV version) && !(startsWithDigit version) then
    false
  else
    isValid L version

/-- A concrete instantiation of the library boundary used to evaluate the
theorems on closed inputs: no string coerces, values are trivial. -/
def noneLib : SemverLib Unit :=
  { coerce := fun _ => none
    compareV := fun _ _ => 0
    eqV := fun _ _ => true
    gtV := fun _ _ => true
    validV := fun _ => true }

/-- A concrete instantiation where a string coerces exactly when it contains
the version 1.2.3 (mirroring that real coercion also accepts range-like
strings), used to evaluate theorems needing a successful coercion. -/
def unitLib : SemverLib Unit :=
  { coerce := fun s => if s == "1.2.3" || s == "^1.2.3" then some () else none
    compareV := fun _ _ => 0
    eqV := fun _ _ => true
    gtV := fun _ _ => true
    validV := fun _ => true }

end SemverCoerced

namespace Cache

theorem handleResponse_transportCalled (cfg : ProviderConfig) (g : Bool)
    (entry : Option CacheEntry) (now : Int) (resp : HttpResponse) :
    (handleResponse cfg g entry now resp).transportCalled = true := by
  cases entry with
  | none => simp [handleResponse, freshWrite]
  | some e =>
    by_cases h3 : (resp.statusCode == 304) = true <;>
      simp [handleResponse, freshWrite, h3]

theorem fetch_not_fresh_transportCalled (cfg : ProviderConfig) (g : Bool)
    (e : CacheEntry) (now : Int) (tr : Except String HttpResponse)
    (h : isFresh e now cfg.ttlMinutes = false) :
    (fetch cfg g (some e) now tr).transportCalled = true := by
  cases tr with
  | error msg => simp [fetch, h]
  | ok resp => simp [fetch, h, handleResponse_transportCalled]

end Cache

/-- C1: for every cache entry whose age is strictly below the soft-TTL
window (now - timestamp < ttlMinutes, in milliseconds), fetch returns the
stored httpResponse directly, with no transport call and no store write. -/
theorem Cache.fetch_fresh_short_circuit (cfg : Cache.ProviderConfig) (g : Bool)
    (e : Cache.CacheEntry) (now : Int) (tr : Except String Cache.HttpResponse)
    (h : now - e.timestamp < (cfg.ttlMinutes * Cache.msPerMinute : Nat)) :
    Cache.fetch cfg g (some e) now tr =
      { response := Except.ok e.httpResponse
        storeWrite := none
        transportCalled := false } := by
  have hf : Cache.isFresh e now cfg.ttlMinutes = true := by
    unfold Cache.isFresh
    exact decide_eq_true h
  simp [Cache.fetch, hf]

/-- Witness for C1 at the test scenario: entry written at the time origin,
clock at 899999 ms (one millisecond before the 15-minute boundary). -/
theorem Cache.fetch_fresh_short_circuit_witness :
    ((899999 : Int) - Cache.sampleEntry.timestamp <
        (Cache.defaultCfg.ttlMinutes * Cache.msPerMinute : Nat)) ∧
    Cache.fetch Cache.defaultCfg false (some Cache.sampleEntry) 899999
        (Except.error "network") =
      { response := Except.ok Cache.sampleEntry.httpResponse
        storeWrite := none
        transportCalled := false } :=
  ⟨by decide,
   Cache.fetch_fresh_short_circuit Cache.defaultCfg false Cache.sampleEntry 899999
     (Except.error "network") (by decide)⟩

/-- C2: on transport failure, a call with an existing entry returns the
cached httpResponse with no store write, and a call with no entry propagates
the same failure unchanged, also with no store write. -/
theorem Cache.fetch_transport_failure (cfg : Cache.ProviderConfig) (g : Bool)
    (now : Int) (msg : String) :
    (∀ e : Cache.CacheEntry,
      (Cache.fetch cfg g (some e) now (Except.error msg)).response =
          Except.ok e.httpResponse ∧
      (Cache.fetch cfg g (some e) now (Except.error msg)).storeWrite = none) ∧
    ((Cache.fetch cfg g none now (Except.error msg)).response = Except.error msg ∧
      (Cache.fetch cfg g none now (Except.error msg)).storeWrite = none) := by
  refine ⟨fun e => ?_, ?_⟩
  · by_cases h : Cache.isFresh e now cfg.ttlMinutes = true <;>
      simp [Cache.fetch, h]
  · simp [Cache.fetch]

/-- Witness for C2 at the test scenario: stale entry, failing transport. -/
theorem Cache.fetch_transport_failure_witness :
    (Cache.fetch Cache.defaultCfg false (some Cache.sampleEntry) 900000
        (Except.error "ECONNREFUSED")).response =
      Except.ok Cache.sampleEntry.httpResponse ∧
    (Cache.fetch Cache.defaultCfg false (some Cache.sampleEntry) 900000
        (Except.error "ECONNREFUSED")).storeWrite = none :=
  (Cache.fetch_transport_failure Cache.defaultCfg false 900000 "ECONNREFUSED").1
    Cache.sampleEntry

/-- C3: whenever the transport returns a response successfully and its
status is not 304, fetch hands exactly that response (status and body) to
the caller, whatever the persistence decision; this includes 5xx statuses,
which at the transport interface of the spec are successes, not errors. -/
theorem Cache.fetch_returns_transport_response (cfg : Cache.ProviderConfig)
    (g : Bool) (entry : Option Cache.CacheEntry) (now : Int)
    (resp : Cache.HttpResponse)
    (hstale : ∀ e, entry = some e → Cache.isFresh e now cfg.ttlMinutes = false)
    (h304 : resp.statusCode ≠ 304) :
    (Cache.fetch cfg g entry now (Except.ok resp)).response = Except.ok resp := by
  cases entry with
  | none => simp [Cache.fetch, Cache.handleResponse, Cache.freshWrite]
  | some e =>
    simp [Cache.fetch, hstale e rfl, Cache.handleResponse, h304, Cache.freshWrite]

/-- Witness for C3 with a 500-status success on a cache miss: the 500
response itself reaches the caller. -/
theorem Cache.fetch_returns_transport_response_witness :
    Cache.serverErrorResponse.statusCode ≠ 304 ∧
    (Cache.fetch Cache.defaultCfg false none 900000
        (Except.ok Cache.serverErrorResponse)).response =
      Except.ok Cache.serverErrorResponse :=
  ⟨by decide,
   Cache.fetch_returns_transport_response Cache.defaultCfg false none 900000
     Cache.serverErrorResponse (fun e h => nomatch h) (by decide)⟩

/-- C4: with checkCacheControl true and the global allow-private flag false,
a non-304 response whose Cache-Control contains the private directive is
returned to the caller but never written to the store; and in every other
combination of the three conditions the policy evaluator deems the response
cacheable. -/
theorem Cache.private_suppresses_caching (cfg : Cache.ProviderConfig)
    (entry : Option Cache.CacheEntry) (now : Int) (resp : Cache.HttpResponse)
    (hcc : cfg.checkCacheControl = true)
    (hpriv : Cache.hasPrivateDirective resp.headers = true)
    (hstale : ∀ e, entry = some e → Cache.isFresh e now cfg.ttlMinutes = false)
    (h304 : resp.statusCode ≠ 304) :
    ((Cache.fetch cfg false entry now (Except.ok resp)).response = Except.ok resp ∧
      (Cache.fetch cfg false entry now (Except.ok resp)).storeWrite = none) ∧
    (∀ (headers : List (String × String)) (cc g : Bool),
      ¬(cc = true ∧ Cache.hasPrivateDirective headers = true ∧ g = false) →
      Cache.isCacheable headers cc g = true) := by
  constructor
  · have hnc : Cache.isCacheable resp.headers cfg.checkCacheControl false = false := by
      simp [Cache.isCacheable, hcc, hpriv]
    cases entry with
    | none =>
      simp [Cache.fetch, Cache.handleResponse, Cache.freshWrite, hnc]
    | some e =>
      simp [Cache.fetch, hstale e rfl, Cache.handleResponse, h304,
        Cache.freshWrite, hnc]
  · intro headers cc g h
    cases cc <;> cases g <;> simp_all [Cache.isCacheable]

/-- Witness for C4 at the test scenario: cache miss, default config, private
response; the body is returned and nothing is stored. -/
theorem Cache.private_suppresses_caching_witness :
    (Cache.defaultCfg.checkCacheControl = true ∧
      Cache.hasPrivateDirective Cache.privateResponse.headers = true ∧
      Cache.privateResponse.statusCode ≠ 304) ∧
    ((Cache.fetch Cache.defaultCfg false none 0
        (Except.ok Cache.privateResponse)).response =
          Except.ok Cache.privateResponse ∧
      (Cache.fetch Cache.defaultCfg false none 0
        (Except.ok Cache.privateResponse)).storeWrite = none) :=
  ⟨⟨by decide, by decide, by decide⟩,
   (Cache.private_suppresses_caching Cache.defaultCfg none 0 Cache.privateResponse
     (by decide) (by decide) (fun e h => nomatch h) (by decide)).1⟩

/-- C5: for a response whose Cache-Control contains the private directive,
either the global allow-private flag being true or checkCacheControl being
false makes the policy evaluator accept it, and a (non-304) fetch writes the
response to the store. -/
theorem Cache.overrides_restore_private_caching (cfg : Cache.ProviderConfig)
    (g : Bool) (now : Int) (resp : Cache.HttpResponse)
    (hpriv : Cache.hasPrivateDirective resp.headers = true)
    (hover : g = true ∨ cfg.checkCacheControl = false)
    (h304 : resp.statusCode ≠ 304) :
    Cache.isCacheable resp.headers cfg.checkCacheControl g = true ∧
    (Cache.fetch cfg g none now (Except.ok resp)).storeWrite =
      some { etag := Cache.getHeader resp.headers "etag"
             lastModified := Cache.getHeader resp.headers "last-modified"
             httpResponse := resp
             timestamp := now } := by
  have hc : Cache.isCacheable resp.headers cfg.checkCacheControl g = true := by
    rcases hover with h | h <;> simp [Cache.isCacheable, h]
  refine ⟨hc, ?_⟩
  simp [Cache.fetch, Cache.handleResponse, Cache.freshWrite, hc]

/-- Witness for C5 at the test scenario: global flag true, private response
on a cache miss is written with its validators and the fetch time. -/
theorem Cache.overrides_restore_private_caching_witness :
    (Cache.hasPrivateDirective Cache.privateResponse.headers = true ∧
      Cache.privateResponse.statusCode ≠ 304) ∧
    (Cache.isCacheable Cache.privateResponse.headers
        Cache.defaultCfg.checkCacheControl true = true ∧
      (Cache.fetch Cache.defaultCfg true none 0
          (Except.ok Cache.privateResponse)).storeWrite =
        some { etag := Cache.getHeader Cache.privateResponse.headers "etag"
               lastModified :=
                 Cache.getHeader Cache.privateResponse.headers "last-modified"
               httpResponse := Cache.privateResponse
               timestamp := 0 }) :=
  ⟨⟨by decide, by decide⟩,
   Cache.overrides_restore_private_caching Cache.defaultCfg true 0
     Cache.privateResponse (by decide) (Or.inl rfl) (by decide)⟩

/-- C6: when the entry's age equals the soft-TTL window exactly, or when
ttlMinutes is 0 and the call happens at or after the write time, the
short-circuit does not apply and the transport is called. -/
theorem Cache.boundary_revalidation (cfg : Cache.ProviderConfig) (g : Bool)
    (e : Cache.CacheEntry) (now : Int) (tr : Except String Cache.HttpResponse)
    (h : now - e.timestamp = (cfg.ttlMinutes * Cache.msPerMinute : Nat) ∨
      (cfg.ttlMinutes = 0 ∧ e.timestamp ≤ now)) :
    (Cache.fetch cfg g (some e) now tr).transportCalled = true := by
  apply Cache.fetch_not_fresh_transportCalled
  unfold Cache.isFresh
  rcases h with h | ⟨h0, hts⟩
  · rw [h]
    simp
  · rw [h0]
    simp
    omega

/-- Witness for C6 at the boundary of the test scenario: clock exactly 15
minutes after the write; the transport is called. -/
theorem Cache.boundary_revalidation_witness :
    ((900000 : Int) - Cache.sampleEntry.timestamp =
        (Cache.defaultCfg.ttlMinutes * Cache.msPerMinute : Nat)) ∧
    (Cache.fetch Cache.defaultCfg false (some Cache.sampleEntry) 900000
        (Except.ok Cache.newResponse)).transportCalled = true :=
  ⟨by decide,
   Cache.boundary_revalidation Cache.defaultCfg false Cache.sampleEntry 900000
     (Except.ok Cache.newResponse) (Or.inl (by decide))⟩

/-- C7: a cache-miss fetch of a cacheable 200 response carrying an ETag but
no Last-Modified stores an entry whose etag is the response's ETag value,
whose lastModified is absent, whose httpResponse is the full response (so
status 200 and the response body), and whose timestamp is the fetch time;
the response also reaches the caller. -/
theorem Cache.cache_miss_write_shape (cfg : Cache.ProviderConfig) (g : Bool)
    (now : Int) (resp : Cache.HttpResponse) (t : String)
    (h200 : resp.statusCode = 200)
    (hetag : Cache.getHeader resp.headers "etag" = some t)
    (hlm : Cache.getHeader resp.headers "last-modified" = none)
    (hok : Cache.isCacheable resp.headers cfg.checkCacheControl g = true) :
    (Cache.fetch cfg g none now (Except.ok resp)).storeWrite =
      some { etag := some t
             lastModified := none
             httpResponse := resp
             timestamp := now } ∧
    (Cache.fetch cfg g none now (Except.ok resp)).response = Except.ok resp := by
  constructor <;>
    simp [Cache.fetch, Cache.handleResponse, Cache.freshWrite, hok, hetag, hlm]

/-- Witness for C7 at the test scenario: first fetch of the 200 response
with ETag foobar and no Last-Modified; the stored entry has the documented
shape. -/
theorem Cache.cache_miss_write_shape_witness :
    (Cache.newResponse.statusCode = 200 ∧
      Cache.getHeader Cache.newResponse.headers "etag" = some "foobar" ∧
      Cache.getHeader Cache.newResponse.headers "last-modified" = none ∧
      Cache.isCacheable Cache.newResponse.headers
        Cache.defaultCfg.checkCacheControl false = true) ∧
    ((Cache.fetch Cache.defaultCfg false none 0
        (Except.ok Cache.newResponse)).storeWrite =
      some { etag := some "foobar"
             lastModified := none
             httpResponse := Cache.newResponse
             timestamp := 0 } ∧
      (Cache.fetch Cache.defaultCfg false none 0
        (Except.ok Cache.newResponse)).response = Except.ok Cache.newResponse) :=
  ⟨⟨by decide, by decide, by decide, by decide⟩,
   Cache.cache_miss_write_shape Cache.defaultCfg false 0 Cache.newResponse
     "foobar" (by decide) (by decide) (by decide) (by decide)⟩

/-- C8: every entry written to the store by a fetch call (fresh fetch or
revalidation) carries timestamp equal to the call's time, and a soft-TTL
cache hit performs no store write and no transport call, leaving the stored
entry completely unchanged. -/
theorem Cache.timestamp_refresh_invariant (cfg : Cache.ProviderConfig)
    (g : Bool) (entry : Option Cache.CacheEntry) (now : Int)
    (tr : Except String Cache.HttpResponse) :
    (∀ e2 : Cache.CacheEntry,
      (Cache.fetch cfg g entry now tr).storeWrite = some e2 →
      e2.timestamp = now) ∧
    (∀ e : Cache.CacheEntry, entry = some e →
      Cache.isFresh e now cfg.ttlMinutes = true →
      (Cache.fetch cfg g entry now tr).storeWrite = none ∧
      (Cache.fetch cfg g entry now tr).transportCalled = false) := by
  constructor
  · intro e2 h
    cases entry with
    | none =>
      cases tr with
      | error msg => simp [Cache.fetch] at h
      | ok resp =>
        simp [Cache.fetch, Cache.handleResponse, Cache.freshWrite] at h
        rcases h with ⟨hc, h⟩
        rw [← h]
    | some e =>
      by_cases hf : Cache.isFresh e now cfg.ttlMinutes = true
      · simp [Cache.fetch, hf] at h
      · cases tr with
        | error msg => simp [Cache.fetch, hf] at h
        | ok resp =>
          simp [Cache.fetch, hf] at h
          by_cases h3 : (resp.statusCode == 304) = true
          · simp [Cache.handleResponse, h3] at h
            rcases h with ⟨hc, h⟩
            rw [← h]
          · simp [Cache.handleResponse, h3, Cache.freshWrite] at h
            rcases h with ⟨hc, h⟩
            rw [← h]
  · intro e he hf
    rw [he]
    simp [Cache.fetch, hf]

/-- Witness for C8 at the test scenario: a fresh hit one millisecond after
the write leaves the store untouched and skips the transport. -/
theorem Cache.timestamp_refresh_invariant_witness :
    (Cache.isFresh Cache.sampleEntry 1 Cache.defaultCfg.ttlMinutes = true) ∧
    ((Cache.fetch Cache.defaultCfg false (some Cache.sampleEntry) 1
        (Except.error "unused")).storeWrite = none ∧
      (Cache.fetch Cache.defaultCfg false (some Cache.sampleEntry) 1
        (Except.error "unused")).transportCalled = false) :=
  ⟨by decide,
   (Cache.timestamp_refresh_invariant Cache.defaultCfg false
       (some Cache.sampleEntry) 1 (Except.error "unused")).2
     Cache.sampleEntry rfl (by decide)⟩

/-- C9: whenever at least one of the two argument strings fails to coerce,
sortVersions returns 0, equals returns false and isGreaterThan returns
false; all three are total functions of their inputs, so no exception
escapes on non-coercible input. -/
theorem SemverCoerced.non_coercible_comparisons {V : Type}
    (L : SemverCoerced.SemverLib V) (a b : String)
    (h : L.coerce a = none ∨ L.coerce b = none) :
    SemverCoerced.sortVersions L a b = 0 ∧
    SemverCoerced.equals L a b = false ∧
    SemverCoerced.isGreaterThan L a b = false := by
  cases ha : L.coerce a <;> cases hb : L.coerce b <;>
    simp_all [SemverCoerced.sortVersions, SemverCoerced.equals,
      SemverCoerced.isGreaterThan]

/-- Witness for C9: a non-coercible first argument yields 0, false, false. -/
theorem SemverCoerced.non_coercible_comparisons_witness :
    (SemverCoerced.noneLib.coerce "not a version" = none ∨
      SemverCoerced.noneLib.coerce "1.2.3" = none) ∧
    (SemverCoerced.sortVersions SemverCoerced.noneLib "not a version" "1.2.3" = 0 ∧
      SemverCoerced.equals SemverCoerced.noneLib "not a version" "1.2.3" = false ∧
      SemverCoerced.isGreaterThan SemverCoerced.noneLib "not a version" "1.2.3" =
        false) :=
  ⟨Or.inl rfl,
   SemverCoerced.non_coercible_comparisons SemverCoerced.noneLib "not a version"
     "1.2.3" (Or.inl rfl)⟩

/-- C10: isSingleVersion rejects every string starting with neither the
character v nor a decimal digit, even when the string coerces to a valid
semver; and it returns true exactly for strings with such a prefix whose
coercion is a valid semver (the isValid test of the module). -/
theorem SemverCoerced.isSingleVersion_characterisation {V : Type}
    (L : SemverCoerced.SemverLib V) (version : String) :
    (SemverCoerced.startsWithV version = false →
      SemverCoerced.startsWithDigit version = false →
      SemverCoerced.isSingleVersion L version = false) ∧
    (SemverCoerced.isSingleVersion L version = true ↔
      (SemverCoerced.startsWithV version = true ∨
        SemverCoerced.startsWithDigit version = true) ∧
      SemverCoerced.isValid L version = true) := by
  unfold SemverCoerced.isSingleVersion
  cases hv : SemverCoerced.startsWithV version <;>
    cases hd : SemverCoerced.startsWithDigit version <;>
      simp [hv, hd]

/-- Witness for C10: the range-like string caret-1.2.3 coerces successfully
under the sample library, yet isSingleVersion rejects it because it starts
with neither v nor a digit. -/
theorem SemverCoerced.isSingleVersion_characterisation_witness :
    (SemverCoerced.startsWithV "^1.2.3" = false ∧
      SemverCoerced.startsWithDigit "^1.2.3" = false ∧
      SemverCoerced.unitLib.coerce "^1.2.3" = some ()) ∧
    SemverCoerced.isSingleVersion SemverCoerced.unitLib "^1.2.3" = false :=
  ⟨⟨rfl, rfl, rfl⟩,
   (SemverCoerced.isSingleVersion_characterisation SemverCoerced.unitLib
     "^1.2.3").1 rfl rfl⟩
